import Mathlib

/- Verification development for the conversion-orchestration core of the
   pptx-to-picture repository.  The Python sources under src/ are shallowly
   embedded: pure computations become Lean functions, filesystem state is an
   explicit predicate on paths, external processes are represented by their
   observable outcome (exit code, streams, timeout, or a raised exception),
   and Python exceptions are modelled with Except. -/

/- Python pathlib model.  A path is a directory (opaque string) plus a final
   component.  pathlib's suffix rule: with i the index of the last dot in the
   name, the suffix is name[i:] when 0 < i < len(name)-1, otherwise "". -/

/-- Characters strictly after the last dot of a list, none if no dot. -/
def afterLastDot : List Char → Option (List Char)
  | [] => none
  | c :: cs =>
    match afterLastDot cs with
    | some r => some r
    | none => if c = '.' then some cs else none

/-- pathlib suffix of a file name (as a character list): the last dot with
what follows it, unless that dot is the first character or the last one. -/
def pySuffixCore : List Char → List Char
  | [] => []
  | _ :: rest =>
    match afterLastDot rest with
    | some r => if r = [] then [] else '.' :: r
    | none => []

/-- pathlib stem: the name with its suffix removed. -/
def pyStemCore (cs : List Char) : List Char :=
  cs.take (cs.length - (pySuffixCore cs).length)

/-- pathlib `Path.suffix` on strings (includes the leading dot). -/
def pySuffix (s : String) : String := ⟨pySuffixCore s.data⟩

/-- pathlib `Path.stem` on strings. -/
def pyStem (s : String) : String := ⟨pyStemCore s.data⟩

/-- The extension of a file name: its pathlib suffix without the dot. -/
def pyExt (s : String) : String := ⟨(pySuffixCore s.data).drop 1⟩

/-- Python `fmt.lower().lstrip('.')`: lower-case, then drop leading dots. -/
def normalizeFmt (s : String) : String :=
  ⟨(s.data.map Char.toLower).dropWhile (fun c => c = '.')⟩

/-- A filesystem path: parent directory (opaque) and final component. -/
structure PyPath where
  dir : String
  name : String
deriving DecidableEq, Repr

/-- Python `str(path)` as used in error messages. -/
def PyPath.render (p : PyPath) : String := p.dir ++ "/" ++ p.name

/- Data model from src/src/converters/base.py. -/

/-- ConversionOptions (base.py).  The open-ended `extra` dict is omitted:
no code under verification reads it. -/
structure ConversionOptions where
  output_dir : Option String := none
  overwrite : Bool := false
  quality : Nat := 95
  width : Option Nat := none
  height : Option Nat := none
  dpi : Nat := 300
  video_codec : Option String := none
  video_bitrate : Option String := none
  fps : Option Nat := none
  audio_codec : Option String := none
  audio_bitrate : Option String := none
  sample_rate : Option Nat := none
  page_range : Option String := none
deriving Repr, DecidableEq

/-- ConversionResult (base.py).  `duration_seconds` (wall-clock time) is not
modelled. -/
structure ConversionResult where
  success : Bool
  input_path : PyPath
  output_path : Option PyPath := none
  error_message : Option String := none
deriving Repr, DecidableEq

/-- Python truthiness of an `Optional[int]`: `None` and `0` are falsy. -/
def truthyNat : Option Nat → Bool
  | none => false
  | some n => decide (n ≠ 0)

/-- Python `a or b` on `Optional[str]` values: `None` and `""` are falsy. -/
def pyOrStrOpt (a b : Option String) : Option String :=
  match a with
  | some s => if s = "" then b else some s
  | none => b

/-- Python `a or d` where `a : Optional[int]` and `d` a default. -/
def pyOrNat (a : Option Nat) (d : Nat) : Nat :=
  match a with
  | some n => if n = 0 then d else n
  | none => d

/-- BaseConverter.get_output_path (base.py lines 160-169):
`{output_dir or input_dir}/{input_stem}.{normalized format}`. -/
def get_output_path (input_path : PyPath) (output_format : String)
    (options : ConversionOptions) : PyPath :=
  let output_dir := options.output_dir.getD input_path.dir
  ⟨output_dir, pyStem input_path.name ++ "." ++ normalizeFmt output_format⟩

/- Process model.  Bounded subprocess.run calls either complete with an exit
   code and captured streams, exceed their timeout, or raise; streaming
   Popen calls complete with an exit code (their stderr is consumed line by
   line for progress and is not part of the reported message) or raise. -/

/-- Captured outcome of a completed bounded process. -/
structure ProcResult where
  exitCode : Int
  stdout : String
  stderr : String
deriving Repr, DecidableEq

/-- Outcome of a bounded `subprocess.run` invocation. -/
inductive RunOutcome where
  | completed (r : ProcResult)
  | timedOut
  | raised (msg : String)
deriving Repr, DecidableEq

/-- Outcome of a streaming `subprocess.Popen` invocation: the final exit
code together with the full stderr text that was streamed past the
progress parser, or an exception. -/
inductive StreamOutcome where
  | finished (exitCode : Int) (stderrText : String)
  | raised (msg : String)
deriving Repr, DecidableEq

/- Backend wrappers. -/

namespace FFmpegBackend

/-- FFmpegBackend.convert_video (ffmpeg_backend.py lines 76-159).  The
argument list built from the options only shapes the external command, so
the option parameters do not influence the returned pair; the stderr of the
streaming process is read for progress markers and is not used in the
result.  Success is reported iff the process exit code is zero. -/
def convert_video (avail : Bool) (_input_path _output_path : PyPath)
    (_video_codec _audio_codec _video_bitrate _audio_bitrate : Option String)
    (_resolution : Option (Nat × Nat)) (_fps : Option Nat)
    (run : StreamOutcome) : Bool × String :=
  if !avail then (false, "FFmpeg not available")
  else
    match run with
    | .raised e => (false, e)
    | .finished rc _ =>
      if rc = 0 then (true, "Conversion successful")
      else (false, "FFmpeg exited with code " ++ toString rc)

/-- FFmpegBackend.convert_audio (ffmpeg_backend.py lines 161-221): same
result shape as convert_video. -/
def convert_audio (avail : Bool) (_input_path _output_path : PyPath)
    (_audio_codec _bitrate : Option String) (_sample_rate : Option Nat)
    (run : StreamOutcome) : Bool × String :=
  if !avail then (false, "FFmpeg not available")
  else
    match run with
    | .raised e => (false, e)
    | .finished rc _ =>
      if rc = 0 then (true, "Conversion successful")
      else (false, "FFmpeg exited with code " ++ toString rc)

/-- FFmpegBackend.video_to_gif (ffmpeg_backend.py lines 238-265).  A bounded
run; `subprocess.TimeoutExpired` is caught by the generic handler, whose
message `str(e)` is the `timeoutStr` parameter.  On a non-zero exit the raw
captured stderr is the message. -/
def video_to_gif (avail : Bool) (_input_path _output_path : PyPath)
    (_fps _width : Nat) (timeoutStr : String) (run : RunOutcome) :
    Bool × String :=
  if !avail then (false, "FFmpeg not available")
  else
    match run with
    | .completed r =>
      if r.exitCode = 0 then (true, "GIF created successfully")
      else (false, r.stderr)
    | .timedOut => (false, timeoutStr)
    | .raised e => (false, e)

end FFmpegBackend

namespace PandocBackend

/-- PandocBackend.convert (pandoc_backend.py lines 92-165).  Format
detection from the extensions and the argument list only shape the external
command; the output-directory mkdir sits inside the try block, so its
failure surfaces through the `raised` outcome.  Success iff exit code zero;
a non-zero exit yields "Pandoc error: " followed by the captured stderr, or
"Unknown error" when stderr is empty (stdout is never consulted). -/
def convert (avail : Bool) (_input_path _output_path : PyPath)
    (run : RunOutcome) : Bool × String :=
  if !avail then (false, "Pandoc not available")
  else
    match run with
    | .timedOut => (false, "Conversion timed out (>120s)")
    | .raised e => (false, e)
    | .completed r =>
      if r.exitCode = 0 then (true, "Conversion successful")
      else
        (false, "Pandoc error: " ++ (if r.stderr = "" then "Unknown error" else r.stderr))

end PandocBackend

namespace LibreOfficeBackend

/-- LibreOfficeBackend.convert (libreoffice_backend.py lines 58-124).  The
output-directory mkdir happens before the try block, so an mkdir fault is an
exception escaping this call (`Except.error`).  On a zero exit the expected
`{stem}.{format}` artifact is looked up in the post-run filesystem; when
absent, the alternates `{stem}.{ext}` for ext in [format, pdf, png] are
searched and the first hit is returned as the output path.  On a non-zero
exit the message is "LibreOffice error: " followed by stderr, or stdout
when stderr is empty, or "Unknown error". -/
def convert (avail : Bool) (input_path : PyPath) (output_format : String)
    (output_dir : Option String) (mkdirResult : Except String Unit)
    (run : RunOutcome) (fsAfter : PyPath → Bool) :
    Except String (Bool × Option PyPath × String) :=
  if !avail then .ok (false, none, "LibreOffice not available")
  else
    let fmt := normalizeFmt output_format
    let dir := output_dir.getD input_path.dir
    match mkdirResult with
    | .error e => .error e
    | .ok _ =>
      match run with
      | .timedOut => .ok (false, none, "Conversion timed out (>120s)")
      | .raised e => .ok (false, none, e)
      | .completed r =>
        if r.exitCode = 0 then
          let expected : PyPath := ⟨dir, pyStem input_path.name ++ "." ++ fmt⟩
          if fsAfter expected then .ok (true, some expected, "Conversion successful")
          else
            match [fmt, "pdf", "png"].find?
                (fun ext => fsAfter ⟨dir, pyStem input_path.name ++ "." ++ ext⟩) with
            | some ext =>
              .ok (true, some ⟨dir, pyStem input_path.name ++ "." ++ ext⟩,
                   "Conversion successful")
            | none => .ok (false, none, "Output file not found after conversion")
        else
          .ok (false, none, "LibreOffice error: " ++
            (if r.stderr = "" then (if r.stdout = "" then "Unknown error" else r.stdout)
             else r.stderr))

/-- Slide rasterization outcome of the pdf2image collaborator: a page count,
a missing library, or an exception inside the rasterization try block
(which also covers the per-page image saves). -/
inductive RasterizeOutcome where
  | pages (n : Nat)
  | missingLib
  | raised (msg : String)
deriving Repr, DecidableEq

/-- LibreOfficeBackend.convert_presentation_to_images (libreoffice_backend.py
lines 126-174): convert the presentation to a PDF in a temporary directory,
then rasterize each page to `{stem}_slide_{n}.{format}` with n starting at
1.  The initial output-directory mkdir can raise out of the call. -/
def convert_presentation_to_images (avail : Bool) (input_path : PyPath)
    (output_dir : String) (image_format : String)
    (imgMkdir : Except String Unit) (tempDir : String)
    (pdfMkdir : Except String Unit) (pdfRun : RunOutcome)
    (pdfFs : PyPath → Bool) (raster : RasterizeOutcome) :
    Except String (Bool × List PyPath × String) :=
  if !avail then .ok (false, [], "LibreOffice not available")
  else
    match imgMkdir with
    | .error e => .error e
    | .ok _ =>
      match convert true input_path "pdf" (some tempDir) pdfMkdir pdfRun pdfFs with
      | .error e => .error e
      | .ok res =>
        if res.1 then
          match raster with
          | .missingLib => .ok (false, [], "pdf2image not installed. Run: pip install pdf2image")
          | .raised e => .ok (false, [], "Image conversion failed: " ++ e)
          | .pages n =>
            let output_paths := (List.range n).map fun i =>
              (⟨output_dir,
                pyStem input_path.name ++ "_slide_" ++ toString (i + 1) ++ "." ++ image_format⟩ :
                PyPath)
            .ok (true, output_paths, "Created " ++ toString n ++ " images")
        else .ok (false, [], "Failed to convert to PDF: " ++ res.2.2)

end LibreOfficeBackend

/-- The `except Exception` boundary of a converter's convert method: an
exception raised inside the try block becomes a failure result carrying the
exception text. -/
def pyCatch (input_path : PyPath) (body : Except String ConversionResult) :
    ConversionResult :=
  match body with
  | .ok r => r
  | .error e => { success := false, input_path := input_path, error_message := some e }

/-- A ConversionResult is well-formed when success carries an output path
and failure carries an error message. -/
def wellFormedResult (r : ConversionResult) : Bool :=
  if r.success then r.output_path.isSome else r.error_message.isSome

/- Category converters. -/

/-- Which backend a DocumentConverter run invoked, in invocation order. -/
inductive BackendId where
  | pandoc
  | libreoffice
deriving Repr, DecidableEq

namespace DocumentConverter

/-- DocumentConverter.PANDOC_FORMATS (document_converter.py line 30). -/
def PANDOC_FORMATS : List String :=
  ["md", "markdown", "txt", "html", "htm", "rst", "org", "tex", "latex", "epub"]

/-- DocumentConverter.LIBREOFFICE_FORMATS (document_converter.py line 33). -/
def LIBREOFFICE_FORMATS : List String := ["docx", "doc", "odt", "rtf"]

/-- The collaborator state one document conversion sees: backend
availability, the outcome of the (at most one) invocation of each external
tool, the LibreOffice backend's internal mkdir, and the filesystem
LibreOffice leaves behind. -/
structure DocEnv where
  pandocAvail : Bool
  loAvail : Bool
  pandocRun : RunOutcome
  loRun : RunOutcome
  loMkdir : Except String Unit
  loFsAfter : PyPath → Bool

/-- DocumentConverter._convert_with_best_backend (document_converter.py
lines 127-161), returning the result pair together with the list of
backends invoked.  An exception escaping a backend call propagates. -/
def convert_with_best_backend (env : DocEnv) (input_path output_path : PyPath)
    (input_format output_format : String) :
    Except String ((Bool × String) × List BackendId) :=
  if (input_format ∈ PANDOC_FORMATS ∨ output_format ∈ PANDOC_FORMATS) ∧
      env.pandocAvail = true then
    .ok (PandocBackend.convert true input_path output_path env.pandocRun, [.pandoc])
  else if (input_format ∈ LIBREOFFICE_FORMATS ∨
      output_format ∈ (["pdf", "docx", "doc", "odt"] : List String)) ∧
      env.loAvail = true then
    match LibreOfficeBackend.convert true input_path output_format
        (some output_path.dir) env.loMkdir env.loRun env.loFsAfter with
    | .error e => .error e
    | .ok res => .ok ((res.1, res.2.2), [.libreoffice])
  else if env.pandocAvail then
    let res := PandocBackend.convert true input_path output_path env.pandocRun
    if res.1 then .ok (res, [.pandoc])
    else if env.loAvail then
      match LibreOfficeBackend.convert true input_path output_format
          (some output_path.dir) env.loMkdir env.loRun env.loFsAfter with
      | .error e => .error e
      | .ok res2 => .ok ((res2.1, res2.2.2), [.pandoc, .libreoffice])
    else .ok ((false, "No suitable backend available for this conversion"), [.pandoc])
  else if env.loAvail then
    match LibreOfficeBackend.convert true input_path output_format
        (some output_path.dir) env.loMkdir env.loRun env.loFsAfter with
    | .error e => .error e
    | .ok res => .ok ((res.1, res.2.2), [.libreoffice])
  else .ok ((false, "No suitable backend available for this conversion"), [])

/-- DocumentConverter.convert (document_converter.py lines 65-125).  The
try block starts before the overwrite check; mkdir of the output parent and
the backend calls sit inside it, and any exception is caught into a failure
result.  A successful backend run yields the computed output path. -/
def convert (env : DocEnv) (input_path : PyPath) (output_format : String)
    (options : ConversionOptions) (fsBefore : PyPath → Bool)
    (mkdirResult : Except String Unit) : ConversionResult :=
  let fmt := normalizeFmt output_format
  let input_ext := normalizeFmt (pySuffix input_path.name)
  let body : Except String ConversionResult :=
    let output_path := get_output_path input_path fmt options
    if fsBefore output_path && !options.overwrite then
      .ok { success := false, input_path := input_path,
            error_message := some ("Output file already exists: " ++ output_path.render) }
    else
      match mkdirResult with
      | .error e => .error e
      | .ok _ =>
        match convert_with_best_backend env input_path output_path input_ext fmt with
        | .error e => .error e
        | .ok res =>
          if res.1.1 then
            .ok { success := true, input_path := input_path,
                  output_path := some output_path }
          else
            .ok { success := false, input_path := input_path,
                  error_message := some res.1.2 }
  pyCatch input_path body

end DocumentConverter

/-- A Pillow image as the image converter observes it: pixel size and color
mode. -/
structure PILImage where
  width : Nat
  height : Nat
  mode : String
deriving Repr, DecidableEq

namespace ImageConverter

/-- ImageConverter._resize_image (image_converter.py lines 134-154).
Dimension options use Python truthiness (0 counts as unset).  When only one
dimension is set, the other is scaled by the ratio new/original; Python's
float arithmetic is modelled exactly over ℚ and `int(...)` as floor (all
quantities are non-negative, so truncation and floor agree). -/
def resize_image (img : PILImage) (width height : Option Nat) : PILImage :=
  if truthyNat width && truthyNat height then
    { img with width := width.getD 0, height := height.getD 0 }
  else if truthyNat width then
    let w := width.getD 0
    { img with width := w,
               height := (⌊(img.height : ℚ) * ((w : ℚ) / (img.width : ℚ))⌋).toNat }
  else if truthyNat height then
    let h := height.getD 0
    { img with width := (⌊(img.width : ℚ) * ((h : ℚ) / (img.height : ℚ))⌋).toNat,
               height := h }
  else img

/-- ImageConverter.convert (image_converter.py lines 66-132).  Opening,
color-mode conversion, resizing, the overwrite check, mkdir and the save
all sit inside the try block; the saved pixel data is not part of the
returned ConversionResult, so the transformed image is not read back here. -/
def convert (input_path : PyPath) (output_format : String)
    (options : ConversionOptions) (openResult : Except String PILImage)
    (fsBefore : PyPath → Bool) (mkdirResult saveResult : Except String Unit) :
    ConversionResult :=
  let fmt := normalizeFmt output_format
  let body : Except String ConversionResult :=
    match openResult with
    | .error e => .error e
    | .ok img0 =>
      let img1 :=
        if (fmt = "jpg" || fmt = "jpeg") && (img0.mode = "RGBA" || img0.mode = "P") then
          { img0 with mode := "RGB" }
        else img0
      let _img2 :=
        if truthyNat options.width || truthyNat options.height then
          resize_image img1 options.width options.height
        else img1
      let output_path := get_output_path input_path fmt options
      if fsBefore output_path && !options.overwrite then
        .ok { success := false, input_path := input_path,
              error_message := some ("Output file already exists: " ++ output_path.render) }
      else
        match mkdirResult with
        | .error e => .error e
        | .ok _ =>
          match saveResult with
          | .error e => .error e
          | .ok _ =>
            .ok { success := true, input_path := input_path,
                  output_path := some output_path }
  pyCatch input_path body

end ImageConverter

namespace AudioConverter

/-- AudioConverter.FORMAT_CODECS (audio_converter.py lines 29-37). -/
def FORMAT_CODECS : List (String × String) :=
  [("mp3", "libmp3lame"), ("aac", "aac"), ("m4a", "aac"), ("ogg", "libvorbis"),
   ("flac", "flac"), ("wav", "pcm_s16le"), ("opus", "libopus")]

/-- AudioConverter.FORMAT_BITRATES (audio_converter.py lines 40-46). -/
def FORMAT_BITRATES : List (String × String) :=
  [("mp3", "192k"), ("aac", "192k"), ("m4a", "192k"), ("ogg", "192k"),
   ("opus", "128k")]

/-- AudioConverter.convert (audio_converter.py lines 76-154).  The
availability check precedes the try block; the output-path computation,
overwrite check, mkdir and the backend call sit inside it. -/
def convert (avail : Bool) (input_path : PyPath) (output_format : String)
    (options : ConversionOptions) (fsBefore : PyPath → Bool)
    (mkdirResult : Except String Unit) (run : StreamOutcome) : ConversionResult :=
  let fmt := normalizeFmt output_format
  if !avail then
    { success := false, input_path := input_path,
      error_message := some "FFmpeg not available" }
  else
    let body : Except String ConversionResult :=
      let output_path := get_output_path input_path fmt options
      if fsBefore output_path && !options.overwrite then
        .ok { success := false, input_path := input_path,
              error_message := some ("Output file already exists: " ++ output_path.render) }
      else
        match mkdirResult with
        | .error e => .error e
        | .ok _ =>
          let audio_codec := pyOrStrOpt options.audio_codec (FORMAT_CODECS.lookup fmt)
          let bitrate := pyOrStrOpt options.audio_bitrate (FORMAT_BITRATES.lookup fmt)
          let res := FFmpegBackend.convert_audio true input_path output_path
            audio_codec bitrate options.sample_rate run
          if res.1 then
            .ok { success := true, input_path := input_path,
                  output_path := some output_path }
          else
            .ok { success := false, input_path := input_path,
                  error_message := some res.2 }
    pyCatch input_path body

end AudioConverter

namespace VideoConverter

/-- VideoConverter.FORMAT_CODECS (video_converter.py lines 29-36), as
(format, (video codec, audio codec)). -/
def FORMAT_CODECS : List (String × (Option String × Option String)) :=
  [("mp4", (some "libx264", some "aac")), ("webm", (some "libvpx-vp9", some "libopus")),
   ("mkv", (some "libx264", some "aac")), ("avi", (some "mpeg4", some "mp3")),
   ("mov", (some "libx264", some "aac")), ("gif", (none, none))]

/-- VideoConverter.convert (video_converter.py lines 61-158).  GIF output is
a dedicated bounded call with truthy-defaulted fps/width; every other format
is a streaming transcode with table codecs overridable by the options. -/
def convert (avail : Bool) (input_path : PyPath) (output_format : String)
    (options : ConversionOptions) (fsBefore : PyPath → Bool)
    (mkdirResult : Except String Unit) (gifTimeoutStr : String)
    (gifRun : RunOutcome) (run : StreamOutcome) : ConversionResult :=
  let fmt := normalizeFmt output_format
  if !avail then
    { success := false, input_path := input_path,
      error_message := some "FFmpeg not available" }
  else
    let body : Except String ConversionResult :=
      let output_path := get_output_path input_path fmt options
      if fsBefore output_path && !options.overwrite then
        .ok { success := false, input_path := input_path,
              error_message := some ("Output file already exists: " ++ output_path.render) }
      else
        match mkdirResult with
        | .error e => .error e
        | .ok _ =>
          let res :=
            if fmt = "gif" then
              FFmpegBackend.video_to_gif true input_path output_path
                (pyOrNat options.fps 10) (pyOrNat options.width 480)
                gifTimeoutStr gifRun
            else
              let codecs := (FORMAT_CODECS.lookup fmt).getD (none, none)
              let video_codec := pyOrStrOpt options.video_codec codecs.1
              let audio_codec := pyOrStrOpt options.audio_codec codecs.2
              let resolution :=
                if truthyNat options.width && truthyNat options.height then
                  some (options.width.getD 0, options.height.getD 0)
                else none
              FFmpegBackend.convert_video true input_path output_path
                video_codec audio_codec options.video_bitrate options.audio_bitrate
                resolution options.fps run
          if res.1 then
            .ok { success := true, input_path := input_path,
                  output_path := some output_path }
          else
            .ok { success := false, input_path := input_path,
                  error_message := some res.2 }
    pyCatch input_path body

end VideoConverter

namespace PresentationConverter

/-- PresentationConverter._convert_to_images (presentation_converter.py
lines 115-148): wraps the two-stage backend pipeline; success requires a
non-empty image list, and the first image becomes the result's output path. -/
def convert_to_images (input_path : PyPath) (output_dir : String)
    (output_format : String) (imgMkdir : Except String Unit) (tempDir : String)
    (pdfMkdir : Except String Unit) (pdfRun : RunOutcome) (pdfFs : PyPath → Bool)
    (raster : LibreOfficeBackend.RasterizeOutcome) :
    Except String ConversionResult :=
  match LibreOfficeBackend.convert_presentation_to_images true input_path
      output_dir output_format imgMkdir tempDir pdfMkdir pdfRun pdfFs raster with
  | .error e => .error e
  | .ok res =>
    if res.1 && !res.2.1.isEmpty then
      .ok { success := true, input_path := input_path, output_path := res.2.1.head? }
    else
      .ok { success := false, input_path := input_path,
            error_message := some res.2.2 }

/-- PresentationConverter.convert (presentation_converter.py lines 50-113).
The availability check precedes the try block.  There is no
destination-overwrite check anywhere in this converter.  Image formats go
through the two-stage pipeline; other formats call the office backend
directly and, on success, adopt the path that backend reports. -/
def convert (avail : Bool) (input_path : PyPath) (output_format : String)
    (options : ConversionOptions) (mkdirResult : Except String Unit)
    (loRun : RunOutcome) (loFsAfter : PyPath → Bool) (loMkdir : Except String Unit)
    (imgMkdir : Except String Unit) (tempDir : String)
    (pdfMkdir : Except String Unit) (pdfRun : RunOutcome) (pdfFs : PyPath → Bool)
    (raster : LibreOfficeBackend.RasterizeOutcome) : ConversionResult :=
  let fmt := normalizeFmt output_format
  if !avail then
    { success := false, input_path := input_path,
      error_message := some "LibreOffice not available" }
  else
    let body : Except String ConversionResult :=
      let output_dir := options.output_dir.getD input_path.dir
      match mkdirResult with
      | .error e => .error e
      | .ok _ =>
        if fmt ∈ (["png", "jpg", "jpeg"] : List String) then
          convert_to_images input_path output_dir fmt imgMkdir tempDir
            pdfMkdir pdfRun pdfFs raster
        else
          match LibreOfficeBackend.convert true input_path fmt (some output_dir)
              loMkdir loRun loFsAfter with
          | .error e => .error e
          | .ok res =>
            if res.1 then
              .ok { success := true, input_path := input_path,
                    output_path := res.2.1 }
            else
              .ok { success := false, input_path := input_path,
                    error_message := some res.2.2 }
    pyCatch input_path body

end PresentationConverter

/- Converter registry (registry.py). -/

/-- A registered converter as the registry observes it: an identity tag and
its declared format lists (base.py exposes them as lists without leading
dots). -/
structure RegConverter where
  id : Nat
  input_formats : List String
  output_formats : List String
deriving Repr, DecidableEq

/-- BaseConverter.can_convert (base.py lines 142-149): both formats are
normalized, then looked up in the respective supported lists. -/
def RegConverter.can_convert (c : RegConverter) (input_format output_format : String) : Bool :=
  normalizeFmt input_format ∈ c.input_formats &&
  normalizeFmt output_format ∈ c.output_formats

namespace ConverterRegistry

/-- ConverterRegistry.register (registry.py lines 31-35): append unless the
same instance is already present. -/
def register (regs : List RegConverter) (c : RegConverter) : List RegConverter :=
  if c ∈ regs then regs else regs ++ [c]

/-- ConverterRegistry.find_converter (registry.py lines 49-58): first
registered converter whose can_convert accepts the pair. -/
def find_converter (regs : List RegConverter) (input_format output_format : String) :
    Option RegConverter :=
  regs.find? (fun c => c.can_convert input_format output_format)

end ConverterRegistry

/- Helper lemmas. -/

/-- A dot-free list has no characters after a last dot. -/
theorem afterLastDot_eq_none {cs : List Char} (h : '.' ∉ cs) : afterLastDot cs = none := by
  induction cs with
  | nil => rfl
  | cons c cs ih =>
    rw [List.mem_cons, not_or] at h
    simp [afterLastDot, ih h.2, Ne.symm h.1]

/-- Appending a dot and a dot-free tail pins the last dot. -/
theorem afterLastDot_append_dot (xs ys : List Char) (h : '.' ∉ ys) :
    afterLastDot (xs ++ '.' :: ys) = some ys := by
  induction xs with
  | nil => simp [afterLastDot, afterLastDot_eq_none h]
  | cons c xs ih => simp [afterLastDot, ih]

/-- The pathlib suffix of `stem.ext` is `.ext` for a nonempty stem and a
nonempty dot-free ext. -/
theorem pySuffixCore_append_ext (s f : List Char) (hs : s ≠ []) (hf : f ≠ [])
    (hd : '.' ∉ f) : pySuffixCore (s ++ '.' :: f) = '.' :: f := by
  cases s with
  | nil => exact absurd rfl hs
  | cons c s' =>
    simp only [List.cons_append, pySuffixCore]
    rw [afterLastDot_append_dot s' f hd]
    simp [hf]

/-- A nonempty string has nonempty character data. -/
theorem string_data_ne_nil {s : String} (h : s ≠ "") : s.data ≠ [] := by
  intro h0
  exact h (String.ext h0)

/-- List.find? characterized as the first element satisfying the predicate. -/
theorem find?_eq_some_iff_first {α : Type} (p : α → Bool) (l : List α) (a : α) :
    l.find? p = some a ↔
      ∃ l1 l2, l = l1 ++ a :: l2 ∧ p a = true ∧ ∀ x ∈ l1, p x = false := by
  induction l with
  | nil =>
    simp only [List.find?]
    constructor
    · intro h; cases h
    · rintro ⟨l1, l2, heq, -, -⟩
      exact absurd heq.symm (by simp)
  | cons b bs ih =>
    cases hpb : p b with
    | true =>
      rw [List.find?_cons_of_pos _ hpb]
      constructor
      · intro h
        injection h with h
        subst h
        exact ⟨[], bs, rfl, hpb, by simp⟩
      · rintro ⟨l1, l2, heq, hpa, hall⟩
        cases l1 with
        | nil =>
          simp only [List.nil_append, List.cons.injEq] at heq
          rw [heq.1]
        | cons c l1' =>
          simp only [List.cons_append, List.cons.injEq] at heq
          have := hall c (List.mem_cons_self c l1')
          rw [heq.1] at hpb
          exact absurd hpb (by simp [this])
    | false =>
      rw [List.find?_cons_of_neg _ (by simp [hpb])]
      rw [ih]
      constructor
      · rintro ⟨l1, l2, heq, hpa, hall⟩
        refine ⟨b :: l1, l2, by rw [heq, List.cons_append], hpa, ?_⟩
        intro x hx
        rcases List.mem_cons.mp hx with h | h
        · rw [h]; exact hpb
        · exact hall x h
      · rintro ⟨l1, l2, heq, hpa, hall⟩
        cases l1 with
        | nil =>
          simp only [List.nil_append, List.cons.injEq] at heq
          rw [heq.1] at hpb
          rw [hpa] at hpb
          cases hpb
        | cons c l1' =>
          simp only [List.cons_append, List.cons.injEq] at heq
          refine ⟨l1', l2, heq.2, hpa, ?_⟩
          intro x hx
          exact hall x (List.mem_cons_of_mem c hx)

/-- The except-boundary preserves result well-formedness. -/
theorem wellFormed_pyCatch (i : PyPath) (b : Except String ConversionResult)
    (h : ∀ r, b = .ok r → wellFormedResult r = true) :
    wellFormedResult (pyCatch i b) = true := by
  cases b with
  | ok r => exact h r rfl
  | error e => rfl

/-- A successful multi-image result takes its output path from a non-empty
list, so the path is present. -/
theorem wf_images_ok (i : PyPath) (res : Bool × List PyPath × String)
    (h : (res.1 && !res.2.1.isEmpty) = true) :
    wellFormedResult
      { success := true, input_path := i,
        output_path := res.2.1.head?, error_message := none } = true := by
  rcases res with ⟨s, l, m⟩
  cases l <;> simp_all [wellFormedResult]

/-- The office backend reports a path with every success. -/
theorem wf_lo_ok (i : PyPath) (avail : Bool) (inp : PyPath) (fmt : String)
    (odir : Option String) (mk : Except String Unit) (run : RunOutcome)
    (fs : PyPath → Bool) (res : Bool × Option PyPath × String)
    (heq : LibreOfficeBackend.convert avail inp fmt odir mk run fs = Except.ok res)
    (hres : res.1 = true) :
    wellFormedResult
      { success := true, input_path := i,
        output_path := res.2.1, error_message := none } = true := by
  unfold LibreOfficeBackend.convert at heq
  dsimp only at heq
  (repeat' split at heq) <;> cases heq <;> simp_all [wellFormedResult]

/- Claim theorems. -/

/-- Claim C1, counterexample: the claim says every backend call succeeds iff
the exit code is zero AND the produced artifact exists.  FFmpegBackend's
convert_video reports success on a zero exit regardless of the post-run
filesystem: at exit code 0 with a filesystem holding no file at all, it
still returns success, refuting the stated equivalence. -/
theorem claim_C1_counterexample :
    ¬ (∀ (rc : Int) (errText : String) (fs : PyPath → Bool) (outp : PyPath),
        (FFmpegBackend.convert_video true ⟨"d", "clip.mp4"⟩ outp none none none none
            none none (.finished rc errText)).1 = true ↔ (rc = 0 ∧ fs outp = true)) := by
  intro hcl
  have h := (hcl 0 "" (fun _ => false) ⟨"d", "clip.webm"⟩).mp rfl
  exact Bool.false_ne_true h.2

/-- Claim C1, amended: only LibreOfficeBackend.convert ties success to the
artifact being on disk (exit zero AND the expected `{stem}.{fmt}` or an
alternate `{stem}.pdf` / `{stem}.png` exists); FFmpegBackend.convert_video,
FFmpegBackend.convert_audio and PandocBackend.convert report success iff
the exit code is zero, with no artifact check. -/
theorem claim_C1_theorem (input_path output_path : PyPath) (rc : Int) (errText : String)
    (r : ProcResult) (output_format : String) (output_dir : Option String)
    (fsAfter : PyPath → Bool) (vc ac vb ab : Option String)
    (res : Option (Nat × Nat)) (fps srate : Option Nat) :
    ((FFmpegBackend.convert_video true input_path output_path vc ac vb ab
        res fps (.finished rc errText)).1 = true ↔ rc = 0)
    ∧ ((FFmpegBackend.convert_audio true input_path output_path ac ab srate
        (.finished rc errText)).1 = true ↔ rc = 0)
    ∧ ((PandocBackend.convert true input_path output_path (.completed r)).1 = true ↔
        r.exitCode = 0)
    ∧ (∀ s p m, LibreOfficeBackend.convert true input_path output_format output_dir
          (.ok ()) (.completed r) fsAfter = .ok (s, p, m) →
        (s = true ↔ (r.exitCode = 0 ∧
          (fsAfter ⟨output_dir.getD input_path.dir,
              pyStem input_path.name ++ "." ++ normalizeFmt output_format⟩ = true ∨
           fsAfter ⟨output_dir.getD input_path.dir,
              pyStem input_path.name ++ "." ++ "pdf"⟩ = true ∨
           fsAfter ⟨output_dir.getD input_path.dir,
              pyStem input_path.name ++ "." ++ "png"⟩ = true)))) := by
  refine ⟨?_, ?_, ?_, ?_⟩
  · by_cases hrc : rc = 0 <;> simp [FFmpegBackend.convert_video, hrc]
  · by_cases hrc : rc = 0 <;> simp [FFmpegBackend.convert_audio, hrc]
  · by_cases hrc : r.exitCode = 0 <;> simp [PandocBackend.convert, hrc]
  · intro s p m heq
    by_cases hrc : r.exitCode = 0 <;>
    by_cases h1 : fsAfter ⟨output_dir.getD input_path.dir,
        pyStem input_path.name ++ "." ++ normalizeFmt output_format⟩ = true <;>
    by_cases h2 : fsAfter ⟨output_dir.getD input_path.dir,
        pyStem input_path.name ++ "." ++ "pdf"⟩ = true <;>
    by_cases h3 : fsAfter ⟨output_dir.getD input_path.dir,
        pyStem input_path.name ++ "." ++ "png"⟩ = true <;>
    simp_all [LibreOfficeBackend.convert, List.find?]

/-- Claim C1, witness: a zero-exit streaming run is reported successful, and
a zero-exit office run whose only artifact is the alternate pdf satisfies
the LibreOffice success equivalence. -/
theorem claim_C1_witness :
    ((FFmpegBackend.convert_video true ⟨"d", "a.mp4"⟩ ⟨"d", "a.webm"⟩ none none none
        none none none (.finished 0 "")).1 = true ↔ (0 : Int) = 0)
    ∧ (true = true ↔ ((0 : Int) = 0 ∧
        ((fun p => decide (p = (⟨"docs", "deck.pdf"⟩ : PyPath)))
            ⟨"docs", pyStem "deck.pptx" ++ "." ++ normalizeFmt "docx"⟩ = true ∨
         (fun p => decide (p = (⟨"docs", "deck.pdf"⟩ : PyPath)))
            ⟨"docs", pyStem "deck.pptx" ++ "." ++ "pdf"⟩ = true ∨
         (fun p => decide (p = (⟨"docs", "deck.pdf"⟩ : PyPath)))
            ⟨"docs", pyStem "deck.pptx" ++ "." ++ "png"⟩ = true))) := by
  constructor
  · exact ( claim_C1_theorem ⟨"d", "a.mp4"⟩ ⟨"d", "a.webm"⟩ 0 "" ⟨0, "", ""⟩ "docx" none
      (fun p => decide (p = ⟨"docs", "deck.pdf"⟩)) none none none none none none none).1
  · exact ( claim_C1_theorem ⟨"docs", "deck.pptx"⟩ ⟨"x", "y"⟩ 0 "" ⟨0, "", ""⟩ "docx" none
      (fun p => decide (p = ⟨"docs", "deck.pdf"⟩)) none none none none none none none).2.2.2
      true (some ⟨"docs", "deck.pdf"⟩) "Conversion successful" (by rfl)

/-- Claim C2, counterexample: with both backends available, input extension
"xyz" and output extension "rtf", neither format is markup-oriented and the
output "rtf" is in the office set, so the claim's step 2 requires the
office backend; the code instead enters the fallback and invokes Pandoc
first (trace [pandoc], not [libreoffice]), because its step-2 test checks
the output only against pdf/docx/doc/odt. -/
theorem claim_C2_counterexample :
    ("xyz" ∉ DocumentConverter.PANDOC_FORMATS ∧
     "rtf" ∉ DocumentConverter.PANDOC_FORMATS) ∧
    "rtf" ∈ DocumentConverter.LIBREOFFICE_FORMATS ∧
    DocumentConverter.convert_with_best_backend
        ⟨true, true, .completed ⟨0, "", ""⟩, .completed ⟨0, "", ""⟩, .ok (), fun _ => true⟩
        ⟨"d", "n.xyz"⟩ ⟨"d", "n.rtf"⟩ "xyz" "rtf" =
      .ok ((true, "Conversion successful"), [BackendId.pandoc]) := by
  exact ⟨⟨by decide, by decide⟩, by decide, rfl⟩

/-- Claim C2, amended: the backend decision procedure is (1) markup formats
with Pandoc available use Pandoc and return its result; (2) else an input
in the office set or an output in pdf/docx/doc/odt (an office-oriented
output such as rtf does not qualify by itself) with LibreOffice available
uses LibreOffice; (3) else Pandoc is tried first when available, falling
back to LibreOffice when Pandoc fails or is unavailable; (4) the fixed "No
suitable backend available for this conversion" message appears only when
the fallback stage runs out of backends — when the office backend itself is
attempted and fails, its own message is returned instead. -/
theorem claim_C2_theorem (env : DocumentConverter.DocEnv) (input_path output_path : PyPath)
    (input_format output_format : String) :
    (((input_format ∈ DocumentConverter.PANDOC_FORMATS ∨
        output_format ∈ DocumentConverter.PANDOC_FORMATS) ∧ env.pandocAvail = true) →
      DocumentConverter.convert_with_best_backend env input_path output_path
          input_format output_format =
        .ok (PandocBackend.convert true input_path output_path env.pandocRun,
             [BackendId.pandoc]))
    ∧ (¬ ((input_format ∈ DocumentConverter.PANDOC_FORMATS ∨
          output_format ∈ DocumentConverter.PANDOC_FORMATS) ∧ env.pandocAvail = true) →
       ((input_format ∈ DocumentConverter.LIBREOFFICE_FORMATS ∨
          output_format ∈ (["pdf", "docx", "doc", "odt"] : List String)) ∧
          env.loAvail = true) →
       ∀ s p m, LibreOfficeBackend.convert true input_path output_format
            (some output_path.dir) env.loMkdir env.loRun env.loFsAfter = .ok (s, p, m) →
        DocumentConverter.convert_with_best_backend env input_path output_path
            input_format output_format = .ok ((s, m), [BackendId.libreoffice]))
    ∧ (¬ ((input_format ∈ DocumentConverter.PANDOC_FORMATS ∨
          output_format ∈ DocumentConverter.PANDOC_FORMATS) ∧ env.pandocAvail = true) →
       ¬ ((input_format ∈ DocumentConverter.LIBREOFFICE_FORMATS ∨
          output_format ∈ (["pdf", "docx", "doc", "odt"] : List String)) ∧
          env.loAvail = true) →
       env.pandocAvail = true →
       (PandocBackend.convert true input_path output_path env.pandocRun).1 = true →
       DocumentConverter.convert_with_best_backend env input_path output_path
           input_format output_format =
         .ok (PandocBackend.convert true input_path output_path env.pandocRun,
              [BackendId.pandoc]))
    ∧ (¬ ((input_format ∈ DocumentConverter.PANDOC_FORMATS ∨
          output_format ∈ DocumentConverter.PANDOC_FORMATS) ∧ env.pandocAvail = true) →
       ¬ ((input_format ∈ DocumentConverter.LIBREOFFICE_FORMATS ∨
          output_format ∈ (["pdf", "docx", "doc", "odt"] : List String)) ∧
          env.loAvail = true) →
       env.pandocAvail = true →
       (PandocBackend.convert true input_path output_path env.pandocRun).1 = false →
       env.loAvail = true →
       ∀ s p m, LibreOfficeBackend.convert true input_path output_format
            (some output_path.dir) env.loMkdir env.loRun env.loFsAfter = .ok (s, p, m) →
        DocumentConverter.convert_with_best_backend env input_path output_path
            input_format output_format =
          .ok ((s, m), [BackendId.pandoc, BackendId.libreoffice]))
    ∧ (¬ ((input_format ∈ DocumentConverter.PANDOC_FORMATS ∨
          output_format ∈ DocumentConverter.PANDOC_FORMATS) ∧ env.pandocAvail = true) →
       ¬ ((input_format ∈ DocumentConverter.LIBREOFFICE_FORMATS ∨
          output_format ∈ (["pdf", "docx", "doc", "odt"] : List String)) ∧
          env.loAvail = true) →
       env.pandocAvail = false →
       env.loAvail = true →
       ∀ s p m, LibreOfficeBackend.convert true input_path output_format
            (some output_path.dir) env.loMkdir env.loRun env.loFsAfter = .ok (s, p, m) →
        DocumentConverter.convert_with_best_backend env input_path output_path
            input_format output_format = .ok ((s, m), [BackendId.libreoffice]))
    ∧ (¬ ((input_format ∈ DocumentConverter.PANDOC_FORMATS ∨
          output_format ∈ DocumentConverter.PANDOC_FORMATS) ∧ env.pandocAvail = true) →
       ¬ ((input_format ∈ DocumentConverter.LIBREOFFICE_FORMATS ∨
          output_format ∈ (["pdf", "docx", "doc", "odt"] : List String)) ∧
          env.loAvail = true) →
       env.pandocAvail = true →
       (PandocBackend.convert true input_path output_path env.pandocRun).1 = false →
       env.loAvail = false →
       DocumentConverter.convert_with_best_backend env input_path output_path
           input_format output_format =
         .ok ((false, "No suitable backend available for this conversion"),
              [BackendId.pandoc]))
    ∧ (¬ ((input_format ∈ DocumentConverter.PANDOC_FORMATS ∨
          output_format ∈ DocumentConverter.PANDOC_FORMATS) ∧ env.pandocAvail = true) →
       ¬ ((input_format ∈ DocumentConverter.LIBREOFFICE_FORMATS ∨
          output_format ∈ (["pdf", "docx", "doc", "odt"] : List String)) ∧
          env.loAvail = true) →
       env.pandocAvail = false →
       env.loAvail = false →
       DocumentConverter.convert_with_best_backend env input_path output_path
           input_format output_format =
         .ok ((false, "No suitable backend available for this conversion"), [])) := by
  refine ⟨fun hA => ?_, fun hA hB s p m heq => ?_, fun hA hB hp hps => ?_,
    fun hA hB hp hps hl s p m heq => ?_, fun hA hB hp hl s p m heq => ?_,
    fun hA hB hp hps hl => ?_, fun hA hB hp hl => ?_⟩
  · rw [DocumentConverter.convert_with_best_backend, if_pos hA]
  · rw [DocumentConverter.convert_with_best_backend, if_neg hA, if_pos hB, heq]
  · rw [DocumentConverter.convert_with_best_backend, if_neg hA, if_neg hB, if_pos hp]
    simp only [hps, if_true]
  · rw [DocumentConverter.convert_with_best_backend, if_neg hA, if_neg hB, if_pos hp]
    simp only [hps, Bool.false_eq_true, if_false, hl, if_true, heq]
  · rw [DocumentConverter.convert_with_best_backend, if_neg hA, if_neg hB,
      if_neg (by simp [hp]), if_pos hl, heq]
  · rw [DocumentConverter.convert_with_best_backend, if_neg hA, if_neg hB, if_pos hp]
    simp only [hps, Bool.false_eq_true, if_false, hl, if_false]
  · rw [DocumentConverter.convert_with_best_backend, if_neg hA, if_neg hB,
      if_neg (by simp [hp]), if_neg (by simp [hl])]

/-- Claim C2, witness: a markdown-to-html run uses Pandoc and returns its
result; with no backend available the fixed no-suitable-backend message is
returned with no backend invoked. -/
theorem claim_C2_witness :
    DocumentConverter.convert_with_best_backend
        ⟨true, true, .completed ⟨0, "", ""⟩, .completed ⟨0, "", ""⟩, .ok (), fun _ => true⟩
        ⟨"d", "n.md"⟩ ⟨"d", "n.html"⟩ "md" "html" =
      .ok ((true, "Conversion successful"), [BackendId.pandoc]) ∧
    DocumentConverter.convert_with_best_backend
        ⟨false, false, .completed ⟨0, "", ""⟩, .completed ⟨0, "", ""⟩, .ok (), fun _ => true⟩
        ⟨"d", "n.xyz"⟩ ⟨"d", "n.abc"⟩ "xyz" "abc" =
      .ok ((false, "No suitable backend available for this conversion"), []) := by
  constructor
  · exact (( claim_C2_theorem
      ⟨true, true, .completed ⟨0, "", ""⟩, .completed ⟨0, "", ""⟩, .ok (), fun _ => true⟩
      ⟨"d", "n.md"⟩ ⟨"d", "n.html"⟩ "md" "html").1 ⟨Or.inl (by decide), rfl⟩).trans rfl
  · exact ( claim_C2_theorem
      ⟨false, false, .completed ⟨0, "", ""⟩, .completed ⟨0, "", ""⟩, .ok (), fun _ => true⟩
      ⟨"d", "n.xyz"⟩ ⟨"d", "n.abc"⟩ "xyz" "abc").2.2.2.2.2.2 (by decide) (by decide) rfl rfl

/-- Claim C3: a presentation with N slides (N PDF pages rasterized) converted
to an image format produces exactly N files named `{stem}_slide_{n}.{ext}`
for n from 1 to N, and the converter's result carries the first image
(slide 1) as its output path. -/
theorem claim_C3_theorem (input_path : PyPath) (output_format : String)
    (options : ConversionOptions) (tempDir : String)
    (mkdirResult imgMkdir pdfMkdir loMkdir : Except String Unit)
    (pdfRun loRun : RunOutcome) (pdfFs loFs : PyPath → Bool)
    (n : Nat) (p : Option PyPath) (m : String)
    (hfmt : normalizeFmt output_format ∈ (["png", "jpg", "jpeg"] : List String))
    (hmk : mkdirResult = .ok ()) (himg : imgMkdir = .ok ())
    (hpdf : LibreOfficeBackend.convert true input_path "pdf" (some tempDir) pdfMkdir
        pdfRun pdfFs = .ok (true, p, m))
    (hn : 0 < n) :
    LibreOfficeBackend.convert_presentation_to_images true input_path
        (options.output_dir.getD input_path.dir) (normalizeFmt output_format) imgMkdir
        tempDir pdfMkdir pdfRun pdfFs (.pages n) =
      .ok (true,
        (List.range n).map (fun i =>
          (⟨options.output_dir.getD input_path.dir,
            pyStem input_path.name ++ "_slide_" ++ toString (i + 1) ++ "." ++
              normalizeFmt output_format⟩ : PyPath)),
        "Created " ++ toString n ++ " images")
    ∧ ((List.range n).map (fun i =>
          (⟨options.output_dir.getD input_path.dir,
            pyStem input_path.name ++ "_slide_" ++ toString (i + 1) ++ "." ++
              normalizeFmt output_format⟩ : PyPath))).length = n
    ∧ PresentationConverter.convert true input_path output_format options mkdirResult
        loRun loFs loMkdir imgMkdir tempDir pdfMkdir pdfRun pdfFs (.pages n) =
      { success := true, input_path := input_path,
        output_path := some ⟨options.output_dir.getD input_path.dir,
          pyStem input_path.name ++ "_slide_" ++ toString (1 : Nat) ++ "." ++
            normalizeFmt output_format⟩ } := by
  have h1 : LibreOfficeBackend.convert_presentation_to_images true input_path
      (options.output_dir.getD input_path.dir) (normalizeFmt output_format) imgMkdir
      tempDir pdfMkdir pdfRun pdfFs (.pages n) =
    .ok (true,
      (List.range n).map (fun i =>
        (⟨options.output_dir.getD input_path.dir,
          pyStem input_path.name ++ "_slide_" ++ toString (i + 1) ++ "." ++
            normalizeFmt output_format⟩ : PyPath)),
      "Created " ++ toString n ++ " images") := by
    simp [LibreOfficeBackend.convert_presentation_to_images, himg, hpdf]
  refine ⟨h1, by simp, ?_⟩
  cases n with
  | zero => exact absurd hn (by omega)
  | succ k =>
    simp [PresentationConverter.convert, PresentationConverter.convert_to_images,
      pyCatch, hmk, hfmt, h1, List.range_succ_eq_map]

/-- Claim C3, witness: a three-slide deck.pptx to png yields deck_slide_1.png
through deck_slide_3.png, with the result's output path the first. -/
theorem claim_C3_witness :
    PresentationConverter.convert true ⟨"decks", "deck.pptx"⟩ "png" {} (.ok ())
        (.completed ⟨0, "", ""⟩) (fun _ => false) (.ok ()) (.ok ()) "tmp" (.ok ())
        (.completed ⟨0, "", ""⟩) (fun p => decide (p = ⟨"tmp", "deck.pdf"⟩)) (.pages 3) =
      { success := true, input_path := ⟨"decks", "deck.pptx"⟩,
        output_path := some ⟨"decks", "deck_slide_1.png"⟩ } ∧
    (List.range 3).map (fun i =>
        (⟨"decks", pyStem "deck.pptx" ++ "_slide_" ++ toString (i + 1) ++ "." ++
          normalizeFmt "png"⟩ : PyPath)) =
      [⟨"decks", "deck_slide_1.png"⟩, ⟨"decks", "deck_slide_2.png"⟩,
       ⟨"decks", "deck_slide_3.png"⟩] := by
  constructor
  · exact (( claim_C3_theorem ⟨"decks", "deck.pptx"⟩ "png" {} "tmp" (.ok ()) (.ok ())
      (.ok ()) (.ok ()) (.completed ⟨0, "", ""⟩) (.completed ⟨0, "", ""⟩)
      (fun p => decide (p = ⟨"tmp", "deck.pdf"⟩)) (fun _ => false)
      3 (some ⟨"tmp", "deck.pdf"⟩) "Conversion successful"
      (by decide) rfl rfl (by rfl) (by decide)).2.2).trans rfl
  · decide

/-- Claim C4, counterexample: PresentationConverter.convert performs no
destination-overwrite check.  With `talk.pdf` already present, overwrite
false and a successful office run, it reports success instead of the
claimed "already exists" failure. -/
theorem claim_C4_counterexample :
    (fun p => decide (p = (⟨"out", "talk.pdf"⟩ : PyPath))) ⟨"out", "talk.pdf"⟩ = true ∧
    ({} : ConversionOptions).overwrite = false ∧
    (PresentationConverter.convert true ⟨"out", "talk.pptx"⟩ "pdf" {} (.ok ())
        (.completed ⟨0, "", ""⟩) (fun p => decide (p = ⟨"out", "talk.pdf"⟩)) (.ok ())
        (.ok ()) "tmp" (.ok ()) (.completed ⟨0, "", ""⟩) (fun _ => false)
        (.pages 0)).success = true := by
  exact ⟨by decide, rfl, rfl⟩

/-- Claim C4, amended: the Document, Image, Audio and Video converters fail
fast with an "Output file already exists" message when the destination
exists and overwrite is false — the result is a fixed failure independent
of every process outcome, so no external process output is consulted (for
the image converter the check follows the in-process open of the source);
the Presentation converter has no such check (see the counterexample). -/
theorem claim_C4_theorem (input_path : PyPath) (output_format : String)
    (options : ConversionOptions) (fsBefore : PyPath → Bool)
    (env : DocumentConverter.DocEnv) (mkdirResult saveResult : Except String Unit)
    (img : PILImage) (run : StreamOutcome) (gifTimeoutStr : String) (gifRun : RunOutcome)
    (hfs : fsBefore (get_output_path input_path (normalizeFmt output_format) options) = true)
    (how : options.overwrite = false) :
    DocumentConverter.convert env input_path output_format options fsBefore mkdirResult =
      { success := false, input_path := input_path,
        error_message := some ("Output file already exists: " ++
          (get_output_path input_path (normalizeFmt output_format) options).render) }
    ∧ ImageConverter.convert input_path output_format options (.ok img) fsBefore
        mkdirResult saveResult =
      { success := false, input_path := input_path,
        error_message := some ("Output file already exists: " ++
          (get_output_path input_path (normalizeFmt output_format) options).render) }
    ∧ AudioConverter.convert true input_path output_format options fsBefore
        mkdirResult run =
      { success := false, input_path := input_path,
        error_message := some ("Output file already exists: " ++
          (get_output_path input_path (normalizeFmt output_format) options).render) }
    ∧ VideoConverter.convert true input_path output_format options fsBefore
        mkdirResult gifTimeoutStr gifRun run =
      { success := false, input_path := input_path,
        error_message := some ("Output file already exists: " ++
          (get_output_path input_path (normalizeFmt output_format) options).render) } := by
  refine ⟨?_, ?_, ?_, ?_⟩
  · simp [DocumentConverter.convert, pyCatch, hfs, how]
  · simp [ImageConverter.convert, pyCatch, hfs, how]
  · simp [AudioConverter.convert, pyCatch, hfs, how]
  · simp [VideoConverter.convert, pyCatch, hfs, how]

/-- Claim C4, witness: report.pdf already present and overwrite false makes
the document converter fail fast with the already-exists message. -/
theorem claim_C4_witness :
    DocumentConverter.convert
        ⟨true, true, .completed ⟨0, "", ""⟩, .completed ⟨0, "", ""⟩, .ok (), fun _ => true⟩
        ⟨"w", "report.docx"⟩ "pdf" {} (fun p => decide (p = ⟨"w", "report.pdf"⟩))
        (.ok ()) =
      { success := false, input_path := ⟨"w", "report.docx"⟩,
        error_message := some "Output file already exists: w/report.pdf" } := by
  exact (( claim_C4_theorem ⟨"w", "report.docx"⟩ "pdf" {}
    (fun p => decide (p = ⟨"w", "report.pdf"⟩))
    ⟨true, true, .completed ⟨0, "", ""⟩, .completed ⟨0, "", ""⟩, .ok (), fun _ => true⟩
    (.ok ()) (.ok ()) ⟨1, 1, "RGB"⟩ (.finished 0 "") "t" (.completed ⟨0, "", ""⟩)
    (by decide) rfl).1).trans rfl

/-- Claim C5, counterexample: the claim says a non-zero exit returns the
tool's error-stream output unmodified.  FFmpeg's streaming convert_video at
exit code 1 with stderr "boom" instead returns the synthesized message
"FFmpeg exited with code 1". -/
theorem claim_C5_counterexample :
    (FFmpegBackend.convert_video true ⟨"d", "a.mp4"⟩ ⟨"d", "a.webm"⟩ none none none none
        none none (.finished 1 "boom")).2 = "FFmpeg exited with code 1" ∧
    ("FFmpeg exited with code 1" : String) ≠ "boom" := by
  exact ⟨rfl, by decide⟩

/-- Claim C5, amended: on a non-zero exit, the streaming FFmpeg conversions
report "FFmpeg exited with code N" (their stderr was consumed for
progress); video_to_gif returns the raw captured stderr; Pandoc returns
"Pandoc error: " plus stderr or "Unknown error" (never stdout); LibreOffice
returns "LibreOffice error: " plus stderr, or stdout when stderr is empty,
or "Unknown error". -/
theorem claim_C5_theorem (input_path output_path : PyPath) (rc : Int) (errText : String)
    (r : ProcResult) (output_format : String) (output_dir : Option String)
    (fsAfter : PyPath → Bool) (vc ac vb ab : Option String)
    (res : Option (Nat × Nat)) (fps srate : Option Nat)
    (gfps gwidth : Nat) (timeoutStr : String) :
    (rc ≠ 0 →
      FFmpegBackend.convert_video true input_path output_path vc ac vb ab res fps
          (.finished rc errText) =
        (false, "FFmpeg exited with code " ++ toString rc))
    ∧ (rc ≠ 0 →
      FFmpegBackend.convert_audio true input_path output_path ac ab srate
          (.finished rc errText) =
        (false, "FFmpeg exited with code " ++ toString rc))
    ∧ (r.exitCode ≠ 0 →
      FFmpegBackend.video_to_gif true input_path output_path gfps gwidth timeoutStr
          (.completed r) = (false, r.stderr))
    ∧ (r.exitCode ≠ 0 →
      PandocBackend.convert true input_path output_path (.completed r) =
        (false, "Pandoc error: " ++
          (if r.stderr = "" then "Unknown error" else r.stderr)))
    ∧ (r.exitCode ≠ 0 →
      LibreOfficeBackend.convert true input_path output_format output_dir (.ok ())
          (.completed r) fsAfter =
        .ok (false, none, "LibreOffice error: " ++
          (if r.stderr = "" then (if r.stdout = "" then "Unknown error" else r.stdout)
           else r.stderr))) := by
  refine ⟨fun hrc => ?_, fun hrc => ?_, fun hrc => ?_, fun hrc => ?_, fun hrc => ?_⟩
  · simp [FFmpegBackend.convert_video, hrc]
  · simp [FFmpegBackend.convert_audio, hrc]
  · simp [FFmpegBackend.video_to_gif, hrc]
  · simp [PandocBackend.convert, hrc]
  · simp [LibreOfficeBackend.convert, hrc]

/-- Claim C5, witness: exit code 1 in the streaming path yields the
synthesized exit-code message; a Pandoc failure carries the prefixed
stderr. -/
theorem claim_C5_witness :
    FFmpegBackend.convert_video true ⟨"d", "a.mp4"⟩ ⟨"d", "a.webm"⟩ none none none none
        none none (.finished 1 "boom") = (false, "FFmpeg exited with code 1") ∧
    PandocBackend.convert true ⟨"d", "n.md"⟩ ⟨"d", "n.html"⟩
        (.completed ⟨2, "", "pandoc: bad input"⟩) =
      (false, "Pandoc error: pandoc: bad input") := by
  constructor
  · exact (( claim_C5_theorem ⟨"d", "a.mp4"⟩ ⟨"d", "a.webm"⟩ 1 "boom" ⟨2, "", ""⟩ "x" none
      (fun _ => false) none none none none none none none 10 480 "t").1 (by decide)).trans rfl
  · exact (( claim_C5_theorem ⟨"d", "n.md"⟩ ⟨"d", "n.html"⟩ 1 ""
      ⟨2, "", "pandoc: bad input"⟩ "x" none (fun _ => false) none none none none
      none none none 10 480 "t").2.2.2.1 (by decide)).trans rfl

/-- Claim C6: for every input and every collaborator behavior — including
raising mkdir, open, save and backend calls, raising outcomes being part of
the quantified outcome types — each converter's convert returns a
ConversionResult in which success carries an output path and failure
carries an error message; no path escapes the except boundary. -/
theorem claim_C6_theorem
    (env : DocumentConverter.DocEnv) (input_path : PyPath) (output_format : String)
    (options : ConversionOptions) (fsBefore : PyPath → Bool)
    (mkdirResult saveResult : Except String Unit) (openResult : Except String PILImage)
    (availA availV availP : Bool) (run : StreamOutcome) (gifTimeoutStr : String)
    (gifRun loRun pdfRun : RunOutcome) (loFs pdfFs : PyPath → Bool)
    (loMkdir imgMkdir pdfMkdir : Except String Unit) (tempDir : String)
    (raster : LibreOfficeBackend.RasterizeOutcome) :
    wellFormedResult (DocumentConverter.convert env input_path output_format options
        fsBefore mkdirResult) = true
    ∧ wellFormedResult (ImageConverter.convert input_path output_format options
        openResult fsBefore mkdirResult saveResult) = true
    ∧ wellFormedResult (AudioConverter.convert availA input_path output_format options
        fsBefore mkdirResult run) = true
    ∧ wellFormedResult (VideoConverter.convert availV input_path output_format options
        fsBefore mkdirResult gifTimeoutStr gifRun run) = true
    ∧ wellFormedResult (PresentationConverter.convert availP input_path output_format
        options mkdirResult loRun loFs loMkdir imgMkdir tempDir pdfMkdir pdfRun pdfFs
        raster) = true := by
  refine ⟨?_, ?_, ?_, ?_, ?_⟩
  · unfold DocumentConverter.convert
    refine wellFormed_pyCatch _ _ ?_
    intro r heq
    dsimp only at heq
    (repeat' split at heq) <;> cases heq <;> rfl
  · unfold ImageConverter.convert
    refine wellFormed_pyCatch _ _ ?_
    intro r heq
    dsimp only at heq
    (repeat' split at heq) <;> cases heq <;> rfl
  · unfold AudioConverter.convert
    split
    · rfl
    · refine wellFormed_pyCatch _ _ ?_
      intro r heq
      dsimp only at heq
      (repeat' split at heq) <;> cases heq <;> rfl
  · unfold VideoConverter.convert
    split
    · rfl
    · refine wellFormed_pyCatch _ _ ?_
      intro r heq
      dsimp only at heq
      (repeat' split at heq) <;> cases heq <;> rfl
  · unfold PresentationConverter.convert
    split
    · rfl
    · refine wellFormed_pyCatch _ _ ?_
      intro r heq
      unfold PresentationConverter.convert_to_images at heq
      dsimp only at heq
      (repeat' split at heq) <;> cases heq <;>
        first
        | rfl
        | solve_by_elim [wf_images_ok, wf_lo_ok]

/-- Claim C7: find_converter is the first-match lookup over the registration
list — it returns none exactly when no registered converter accepts the
normalized pair, and returns a converter exactly when that converter
accepts the pair and every converter registered before it rejects it (so of
two accepting converters, the first registered wins). -/
theorem claim_C7_theorem (regs : List RegConverter) (input_format output_format : String) :
    (ConverterRegistry.find_converter regs input_format output_format = none ↔
      ∀ c ∈ regs, c.can_convert input_format output_format = false)
    ∧ (∀ c, ConverterRegistry.find_converter regs input_format output_format = some c ↔
        ∃ l1 l2, regs = l1 ++ c :: l2 ∧
          c.can_convert input_format output_format = true ∧
          ∀ x ∈ l1, x.can_convert input_format output_format = false) := by
  constructor
  · rw [ConverterRegistry.find_converter, List.find?_eq_none]
    constructor
    · intro h c hc
      have := h c hc
      simpa using this
    · intro h c hc
      simp [h c hc]
  · intro c
    exact find?_eq_some_iff_first _ regs c

/-- Claim C8, counterexample: with output format "tar.gz" the derived file
name is `x.tar.gz`, whose pathlib extension is "gz", not the normalized
format "tar.gz" — the extension clause fails for formats containing a dot. -/
theorem claim_C8_counterexample :
    pyExt (get_output_path ⟨"d", "x.md"⟩ "tar.gz" {}).name = "gz" ∧
    normalizeFmt "tar.gz" = "tar.gz" ∧ ("gz" : String) ≠ "tar.gz" := by
  exact ⟨rfl, rfl, by decide⟩

/-- Claim C8, amended: get_output_path is a pure function returning
`{output_dir or input_dir}/{input_stem}.{format lower-cased, leading dots
stripped}`, and whenever the input has a nonempty stem and the normalized
format is nonempty and dot-free, the resulting path's extension is exactly
the normalized format. -/
theorem claim_C8_theorem (input_path : PyPath) (output_format : String)
    (options : ConversionOptions)
    (hstem : pyStem input_path.name ≠ "")
    (hfmt : normalizeFmt output_format ≠ "")
    (hdot : '.' ∉ (normalizeFmt output_format).data) :
    (get_output_path input_path output_format options).dir =
        options.output_dir.getD input_path.dir
    ∧ (get_output_path input_path output_format options).name =
        pyStem input_path.name ++ "." ++ normalizeFmt output_format
    ∧ pyExt (get_output_path input_path output_format options).name =
        normalizeFmt output_format := by
  refine ⟨rfl, rfl, ?_⟩
  have hs := string_data_ne_nil hstem
  have hf := string_data_ne_nil hfmt
  have hdata : (get_output_path input_path output_format options).name.data =
      (pyStem input_path.name).data ++ '.' :: (normalizeFmt output_format).data := by
    show (pyStem input_path.name ++ "." ++ normalizeFmt output_format).data = _
    rw [String.data_append, String.data_append, List.append_assoc]
    rfl
  show String.mk ((pySuffixCore (get_output_path input_path output_format options).name.data).drop 1) =
    normalizeFmt output_format
  rw [hdata, pySuffixCore_append_ext _ _ hs hf hdot]
  rfl

/-- Claim C8, witness: report.docx to PDF lands at `w/report.pdf` with
extension "pdf". -/
theorem claim_C8_witness :
    pyStem "report.docx" ≠ "" ∧
    get_output_path ⟨"w", "report.docx"⟩ "PDF" {} = ⟨"w", "report.pdf"⟩ ∧
    pyExt (get_output_path ⟨"w", "report.docx"⟩ "PDF" {}).name = normalizeFmt "PDF" := by
  refine ⟨by decide, rfl, ?_⟩
  exact ( claim_C8_theorem ⟨"w", "report.docx"⟩ "PDF" {} (by decide) (by decide) (by decide)).2.2

/-- Claim C9: when exactly one of width/height is truthy, resizing keeps the
given dimension and computes the other as int(original * given / original
of the given dimension), the aspect-preserving formula; Python's float
arithmetic is modelled exactly over ℚ. -/
theorem claim_C9_theorem (img : PILImage) (w h : Nat) :
    (w ≠ 0 →
      ImageConverter.resize_image img (some w) none =
        { width := w,
          height := (⌊((img.height : ℚ) * w) / (img.width : ℚ)⌋).toNat,
          mode := img.mode })
    ∧ (h ≠ 0 →
      ImageConverter.resize_image img none (some h) =
        { width := (⌊((img.width : ℚ) * h) / (img.height : ℚ)⌋).toNat,
          height := h,
          mode := img.mode }) := by
  constructor
  · intro hw
    simp [ImageConverter.resize_image, truthyNat, hw, mul_div_assoc]
  · intro hh
    simp [ImageConverter.resize_image, truthyNat, hh, mul_div_assoc]

/-- Claim C9, witness: a 500x300 source with width 250 resizes to 250x150. -/
theorem claim_C9_witness :
    ImageConverter.resize_image ⟨500, 300, "RGB"⟩ (some 250) none = ⟨250, 150, "RGB"⟩ := by
  rw [( claim_C9_theorem ⟨500, 300, "RGB"⟩ 250 1).1 (by decide)]
  norm_num
  rfl

/-- Claim C10: on a zero exit with the expected `{stem}.{fmt}` absent,
LibreOfficeBackend.convert searches the alternates `{stem}.pdf` then
`{stem}.png` and returns success with the first alternate found — a path
whose extension can differ from the requested format — and only fails with
"Output file not found after conversion" when no alternate exists either. -/
theorem claim_C10_theorem (input_path : PyPath) (output_format : String)
    (output_dir : Option String) (r : ProcResult) (fsAfter : PyPath → Bool)
    (hrc : r.exitCode = 0)
    (hexp : fsAfter ⟨output_dir.getD input_path.dir,
        pyStem input_path.name ++ "." ++ normalizeFmt output_format⟩ = false) :
    (fsAfter ⟨output_dir.getD input_path.dir,
        pyStem input_path.name ++ "." ++ "pdf"⟩ = true →
      LibreOfficeBackend.convert true input_path output_format output_dir (.ok ())
          (.completed r) fsAfter =
        .ok (true, some ⟨output_dir.getD input_path.dir,
              pyStem input_path.name ++ "." ++ "pdf"⟩, "Conversion successful"))
    ∧ (fsAfter ⟨output_dir.getD input_path.dir,
          pyStem input_path.name ++ "." ++ "pdf"⟩ = false →
       fsAfter ⟨output_dir.getD input_path.dir,
          pyStem input_path.name ++ "." ++ "png"⟩ = true →
      LibreOfficeBackend.convert true input_path output_format output_dir (.ok ())
          (.completed r) fsAfter =
        .ok (true, some ⟨output_dir.getD input_path.dir,
              pyStem input_path.name ++ "." ++ "png"⟩, "Conversion successful"))
    ∧ (fsAfter ⟨output_dir.getD input_path.dir,
          pyStem input_path.name ++ "." ++ "pdf"⟩ = false →
       fsAfter ⟨output_dir.getD input_path.dir,
          pyStem input_path.name ++ "." ++ "png"⟩ = false →
      LibreOfficeBackend.convert true input_path output_format output_dir (.ok ())
          (.completed r) fsAfter =
        .ok (false, none, "Output file not found after conversion")) := by
  refine ⟨fun hpdf => ?_, fun hpdf hpng => ?_, fun hpdf hpng => ?_⟩ <;>
    simp [LibreOfficeBackend.convert, hrc, hexp, List.find?, hpdf, *]

/-- Claim C10, witness: requesting docx with only deck.pdf present returns
success with deck.pdf, whose extension differs from the requested format. -/
theorem claim_C10_witness :
    LibreOfficeBackend.convert true ⟨"docs", "deck.pptx"⟩ "docx" none (.ok ())
        (.completed ⟨0, "", ""⟩) (fun p => decide (p = ⟨"docs", "deck.pdf"⟩)) =
      .ok (true, some ⟨"docs", "deck.pdf"⟩, "Conversion successful") ∧
    pyExt "deck.pdf" ≠ normalizeFmt "docx" := by
  constructor
  · exact ( claim_C10_theorem ⟨"docs", "deck.pptx"⟩ "docx" none ⟨0, "", ""⟩
      (fun p => decide (p = ⟨"docs", "deck.pdf"⟩)) rfl (by decide)).1 (by decide)
  · decide
